import Mathlib

/-!
Verification development for the pharma360 backend (TypeScript sources).

The definitions below are a shallow embedding of the data model and of the
operations of the commerce engine: inventory batches and their derived status
(src/src/database/models/tenant/InventoryBatch.ts), sale creation and return
(src/src/modules/sales/service.ts), the purchase lifecycle
(src/src/modules/purchase/service.ts), per-day sequence counters
(src/unnamed/part_004 and PurchaseService.generatePurchaseOrderNumber), the
stale-while-revalidate cache fetch and the stable cache-key hash
(src/src/shared/middleware/errorHandler.ts, second document: cache utils).

Conventions of the embedding:
* every JavaScript number is modelled as a rational (`ℚ`); timestamps are
  milliseconds since the Unix epoch, modelled as `Int`;
* MongoDB documents are Lean structures, collections are lists, and the
  `_id` of a document is a `Nat`;
* a service method becomes a pure function from the tenant state and its
  arguments to `Except AppError (state × result)`; a thrown exception is
  `Except.error`, and since a Mongo transaction rolls back every write of a
  failed attempt, the error branch simply discards the updated state;
* `a || b` on JavaScript numbers treats `0` as falsy; the helper `jsOr`
  reproduces this.
-/

deriving instance DecidableEq for Except

attribute [local semireducible] Rat.mul Rat.add Rat.sub Rat.inv

namespace Pharma360

/-- Inventory batch status, `InventoryStatus` of shared/types.
`partReturn` and `part` below stand for the source's PARTIAL_RETURN and
PARTIAL values (the names are shortened in this embedding). -/
inductive InventoryStatus where
  | active
  | nearExpiry
  | expired
  | outOfStock
deriving DecidableEq, Repr

/-- Payment methods accepted at the point of sale (`PaymentMethod`). -/
inductive PaymentMethod where
  | cash
  | card
  | mobileBanking
  | credit
deriving DecidableEq, Repr

/-- Sale status (`SaleStatus`): COMPLETED, PARTIAL_RETURN, RETURNED. -/
inductive SaleStatus where
  | completed
  | partReturn
  | returned
deriving DecidableEq, Repr

/-- Counter status (`CounterStatus`): ACTIVE or INACTIVE. -/
inductive CounterStatus where
  | active
  | inactive
deriving DecidableEq, Repr

/-- Purchase order status (`PurchaseStatus`). -/
inductive PurchaseStatus where
  | ordered
  | received
  | completed
  | cancelled
deriving DecidableEq, Repr

/-- Purchase payment status (`PaymentStatus`): PAID, PARTIAL, PENDING.
The source's PARTIAL is spelled `part` here. -/
inductive PayStatus where
  | paid
  | part
  | pending
deriving DecidableEq, Repr

/-- Error taxonomy of the repository.  The code defines a single structured
error class, `ValidationError` (field-keyed, src/unnamed/part_000); every
other `throw new Error(msg)` is modelled as `generic`.  The constructor
`stateConflict` is modelled from the spec: the spec's §7 taxonomy names a
`StateConflictError` for illegal state transitions, but no class of that name
exists anywhere in the repository; the constructor is included only so that
statements about it can be expressed. -/
inductive AppError where
  | validation (field msg : String)
  | generic (msg : String)
  | stateConflict (msg : String)
deriving DecidableEq, Repr

/-- Whether a raised error is the spec's `StateConflictError`. -/
def raisedStateConflict {α : Type} (r : Except AppError α) : Bool :=
  match r with
  | .error (.stateConflict _) => true
  | _ => false

/-- Thirty days in milliseconds, `30 * 24 * 60 * 60 * 1000` as written at
sales/service.ts line 42 and InventoryBatch.ts line 103. -/
def thirtyDaysMs : Int := 30 * 24 * 60 * 60 * 1000

/-- The pure batch-status function of (quantity, expiryDate, now): body of the
`inventoryBatchSchema.pre('save')` hook (InventoryBatch.ts lines 101-116),
repeated inline at sales/service.ts lines 87-95 and 354-362. -/
def computeBatchStatus (quantity : ℚ) (expiryDate now : Int) : InventoryStatus :=
  if quantity = 0 then InventoryStatus.outOfStock
  else if expiryDate < now then InventoryStatus.expired
  else if expiryDate < now + thirtyDaysMs then InventoryStatus.nearExpiry
  else InventoryStatus.active

/-- An inventory batch document (InventoryBatch.ts lines 4-19). -/
structure Batch where
  id : Nat
  medicineId : Nat
  batchNumber : String
  expiryDate : Int
  purchaseDate : Int
  supplierId : Option Nat
  purchasePrice : ℚ
  mrp : ℚ
  sellingPrice : ℚ
  quantity : ℚ
  initialQuantity : ℚ
  alertThreshold : ℚ
  status : InventoryStatus
deriving DecidableEq, Repr

/-- Persisting a batch through `document.save()` runs the schema's pre-save
hook, which recomputes `status` from (quantity, expiryDate, now)
(InventoryBatch.ts lines 101-116). -/
def saveBatch (now : Int) (b : Batch) : Batch :=
  { b with status := computeBatchStatus b.quantity b.expiryDate now }

/-- A medicine document; only the fields read by the sales flow. -/
structure Medicine where
  id : Nat
  name : String
deriving DecidableEq, Repr

/-- A customer document (Customer.ts lines 3-17); fields touched by the
commerce engine. -/
structure Customer where
  id : Nat
  name : String
  phone : String
  loyaltyPoints : ℚ
  totalPurchases : ℚ
  lastPurchaseDate : Option Int
  dueAmount : ℚ
deriving DecidableEq, Repr

/-- A POS counter document (Counter.ts lines 4-11). -/
structure Counter where
  id : Nat
  name : String
  status : CounterStatus
  isDefault : Bool
  lastSessionAt : Option Int
deriving DecidableEq, Repr

/-- A `counter_sequences` row (redis.ts second document, lines 244-249):
keyed by (scope, date), holding the running sequence. -/
structure CounterSeqRow where
  scope : String
  date : String
  sequence : Int
deriving DecidableEq, Repr

/-- `String(n).padStart(4, '0')`. -/
def padStart4 (s : String) : String :=
  if s.length ≥ 4 then s else String.mk (List.replicate (4 - s.length) '0') ++ s

/-- Zero-pad to width 2 (for the month and day of an ISO date). -/
def padStart2 (s : String) : String :=
  if s.length ≥ 2 then s else String.mk (List.replicate (2 - s.length) '0') ++ s

/-- Civil date (year, month, day) from a count of days since 1970-01-01,
for non-negative day counts (the domain of every timestamp the services
handle).  This is the standard era-based conversion used to model
JavaScript's `Date.prototype.toISOString`. -/
def civilFromDays (z : Nat) : Nat × Nat × Nat :=
  let zz := z + 719468
  let era := zz / 146097
  let doe := zz % 146097
  let yoe := (doe - doe / 1460 + doe / 36524 - doe / 146096) / 365
  let y := yoe + era * 400
  let doy := doe - (365 * yoe + yoe / 4 - yoe / 100)
  let mp := (5 * doy + 2) / 153
  let d := doy - (153 * mp + 2) / 5 + 1
  let m := if mp < 10 then mp + 3 else mp - 9
  (if m ≤ 2 then y + 1 else y, m, d)

/-- `now.toISOString().slice(0, 10)` with the dashes removed — the YYYYMMDD
string of a millisecond timestamp (part_004 line 9). -/
def dateStrOfMs (now : Int) : String :=
  let days := now.toNat / 86400000
  let ymd := civilFromDays days
  padStart4 (toString ymd.1) ++ padStart2 (toString ymd.2.1) ++ padStart2 (toString ymd.2.2)

/-- The single atomic `findOneAndUpdate({scope, date}, {$inc: {sequence: 1}},
{upsert, new, setDefaultsOnInsert})` of part_004 lines 11-20: one indivisible
increment-and-read at the storage layer.  On first use the row is created
with the schema default `sequence: 0` and the increment applies on top of it,
so the first returned value is 1. -/
def bumpSeq : List CounterSeqRow → String → String → List CounterSeqRow × Int
  | [], scope, date => ([⟨scope, date, 1⟩], 1)
  | r :: rs, scope, date =>
      if r.scope = scope ∧ r.date = date then
        (⟨scope, date, r.sequence + 1⟩ :: rs, r.sequence + 1)
      else
        let out := bumpSeq rs scope date
        (r :: out.1, out.2)

/-- `generateInvoiceNumber` (src/unnamed/part_004 lines 4-24): bump the
("sale", today) sequence atomically and format `INV-<YYYYMMDD>-<seq padded
to 4>`. -/
def generateInvoiceNumber (rows : List CounterSeqRow) (now : Int) :
    List CounterSeqRow × String :=
  let dateStr := dateStrOfMs now
  let out := bumpSeq rows "sale" dateStr
  (out.1, "INV-" ++ dateStr ++ "-" ++ padStart4 (toString out.2))

/-- JavaScript `v || dflt` on an optional number: `undefined`, `null` and `0`
are all falsy. -/
def jsOr (v : Option ℚ) (dflt : ℚ) : ℚ :=
  match v with
  | some x => if x = 0 then dflt else x
  | none => dflt

/-- A captured sale line (`items` subdocument of a Sale,
sales/service.ts lines 71-81). -/
structure SaleItem where
  medicineId : Nat
  medicineName : String
  batchId : Nat
  batchNumber : String
  quantity : ℚ
  mrp : ℚ
  sellingPrice : ℚ
  discount : ℚ
  total : ℚ
deriving DecidableEq, Repr

/-- A sale document (Sale model), with the fields written by `createSale`
(sales/service.ts lines 138-160). -/
structure Sale where
  id : Nat
  invoiceNumber : String
  customerId : Option Nat
  items : List SaleItem
  subtotal : ℚ
  totalDiscount : ℚ
  tax : ℚ
  grandTotal : ℚ
  paymentMethod : PaymentMethod
  amountPaid : ℚ
  changeReturned : ℚ
  counterId : Nat
  saleDate : Int
  status : SaleStatus
deriving DecidableEq, Repr

/-- One line of `CreateSaleDTO.items` (sales/types.ts lines 3-9). -/
structure SaleItemInput where
  medicineId : Nat
  batchId : Nat
  quantity : ℚ
  sellingPrice : Option ℚ
  discount : Option ℚ
deriving DecidableEq, Repr

/-- `CreateSaleDTO` (sales/types.ts lines 11-20). -/
structure CreateSaleDTO where
  customerId : Option Nat
  items : List SaleItemInput
  totalDiscount : Option ℚ
  paymentMethod : PaymentMethod
  amountPaid : ℚ
  counterId : Option Nat
deriving DecidableEq, Repr

/-- One line of `ReturnSaleDTO.items` (sales/types.ts lines 22-28). -/
structure ReturnItemInput where
  saleItemIndex : Nat
  quantity : ℚ
deriving DecidableEq, Repr

/-- The tenant-partition state touched by the sales flow. -/
structure TenantState where
  batches : List Batch
  medicines : List Medicine
  customers : List Customer
  counters : List Counter
  seqRows : List CounterSeqRow
  sales : List Sale
deriving DecidableEq, Repr

/-- Replace the batch with the same id (the effect of `batch.save()` on the
collection). -/
def updateBatchIn (bs : List Batch) (b : Batch) : List Batch :=
  bs.map (fun x => if x.id = b.id then b else x)

/-- The per-item loop of `createSale` (sales/service.ts lines 47-98): load
the batch, reject insufficient stock, load the medicine, price the line,
decrement the batch, recompute its status inline, and persist it (the
pre-save hook recomputes the same status).  Returns the updated batch list,
the captured sale lines and the subtotal. -/
def processSaleItems (now : Int) (medicines : List Medicine) :
    List SaleItemInput → List Batch →
    Except AppError (List Batch × List SaleItem × ℚ)
  | [], batches => .ok (batches, [], 0)
  | item :: rest, batches =>
    match batches.find? (fun b => b.id = item.batchId) with
    | none => .error (.validation "items" "Batch not found")
    | some batch =>
      if batch.quantity < item.quantity then
        .error (.validation "items" "Insufficient stock")
      else
        match medicines.find? (fun m => m.id = item.medicineId) with
        | none => .error (.validation "items" "Medicine not found")
        | some medicine =>
          let sellingPrice := jsOr item.sellingPrice batch.sellingPrice
          let discount := jsOr item.discount 0
          let itemTotal := sellingPrice * item.quantity - discount
          let saleItem : SaleItem :=
            ⟨medicine.id, medicine.name, batch.id, batch.batchNumber,
              item.quantity, batch.mrp, sellingPrice, discount, itemTotal⟩
          let decremented := { batch with quantity := batch.quantity - item.quantity }
          let restatused :=
            { decremented with
                status := computeBatchStatus decremented.quantity decremented.expiryDate now }
          let savedBatch := saveBatch now restatused
          match processSaleItems now medicines rest (updateBatchIn batches savedBatch) with
          | .error e => .error e
          | .ok (bs, sis, sub) => .ok (bs, saleItem :: sis, itemTotal + sub)

/-- `SalesService.createSale` (sales/service.ts lines 16-214): the body of
the transaction, as a pure state transformer.  An error is a rollback: the
input state is left untouched.  The explicit retry loop around the
transaction is modelled separately (`createSaleAttempts`). -/
def createSale (st : TenantState) (data : CreateSaleDTO) (now : Int) :
    Except AppError (TenantState × Sale) :=
  if data.amountPaid < 0 then
    .error (.validation "amountPaid" "amountPaid must be at least 0")
  else if data.items.isEmpty then
    .error (.validation "items" "At least one item is required")
  else
    match processSaleItems now st.medicines data.items st.batches with
    | .error e => .error e
    | .ok (batches', saleItems, subtotal) =>
      let totalDiscount := jsOr data.totalDiscount 0
      let tax : ℚ := 0
      let grandTotal := subtotal - totalDiscount + tax
      if data.amountPaid < grandTotal ∧ data.paymentMethod ≠ PaymentMethod.credit then
        .error (.validation "amountPaid" "Insufficient payment amount")
      else
        let changeReturned :=
          if data.paymentMethod = PaymentMethod.credit then 0
          else data.amountPaid - grandTotal
        let seqOut := generateInvoiceNumber st.seqRows now
        let counterOpt : Option Counter :=
          match data.counterId with
          | some cid =>
              st.counters.find? (fun c =>
                decide (c.id = cid ∧ c.status = CounterStatus.active))
          | none =>
              st.counters.find? (fun c =>
                c.isDefault && decide (c.status = CounterStatus.active))
        match counterOpt with
        | none => .error (.validation "counterId" "No active counter available")
        | some counter =>
          let sale : Sale :=
            { id := st.sales.length
              invoiceNumber := seqOut.2
              customerId := data.customerId
              items := saleItems
              subtotal := subtotal
              totalDiscount := totalDiscount
              tax := tax
              grandTotal := grandTotal
              paymentMethod := data.paymentMethod
              amountPaid := data.amountPaid
              changeReturned := changeReturned
              counterId := counter.id
              saleDate := now
              status := SaleStatus.completed }
          let counters' :=
            st.counters.map (fun c =>
              if c.id = counter.id then { c with lastSessionAt := some now } else c)
          let customers' :=
            match data.customerId with
            | some cid =>
                st.customers.map (fun c =>
                  if c.id = cid then
                    { c with
                        totalPurchases := c.totalPurchases + grandTotal
                        loyaltyPoints := c.loyaltyPoints + ((⌊grandTotal / 100⌋ : ℤ) : ℚ)
                        dueAmount := c.dueAmount +
                          (if data.paymentMethod = PaymentMethod.credit then grandTotal else 0)
                        lastPurchaseDate := some now }
                  else c)
            | none => st.customers
          .ok ({ st with
                  batches := batches'
                  seqRows := seqOut.1
                  counters := counters'
                  customers := customers'
                  sales := st.sales ++ [sale] }, sale)

/-- The per-item loop of the transactional `returnSale` (sales/service.ts
lines 332-371): bounds-check the line index, reject over-returns, restock
the batch and recompute its status, shrink the line's quantity and total by
the pro-rated return amount, and accumulate the total return amount. -/
def processReturnItems (now : Int) :
    List ReturnItemInput → List SaleItem → List Batch → ℚ →
    Except AppError (List SaleItem × List Batch × ℚ)
  | [], items, batches, acc => .ok (items, batches, acc)
  | ri :: rest, items, batches, acc =>
    match items[ri.saleItemIndex]? with
    | none => .error (.generic "Invalid item index")
    | some saleItem =>
      if ri.quantity > saleItem.quantity then
        .error (.validation "items" "Return quantity exceeds sold quantity")
      else
        match batches.find? (fun b => b.id = saleItem.batchId) with
        | none => .error (.generic "Inventory batch not found for return")
        | some batch =>
          let restocked := { batch with quantity := batch.quantity + ri.quantity }
          let restatused :=
            { restocked with
                status := computeBatchStatus restocked.quantity restocked.expiryDate now }
          let savedBatch := saveBatch now restatused
          let returnAmount := saleItem.total / saleItem.quantity * ri.quantity
          let saleItem' :=
            { saleItem with
                quantity := saleItem.quantity - ri.quantity
                total := saleItem.total - returnAmount }
          processReturnItems now rest (items.set ri.saleItemIndex saleItem')
            (updateBatchIn batches savedBatch) (acc + returnAmount)

/-- The transactional `SalesService.returnSale` (sales/service.ts lines
311-417): the body of its single `withTransaction` call as a pure state
transformer.  Note the customer update (lines 379-390) decrements only
`totalPurchases` and `loyaltyPoints`. -/
def returnSale (st : TenantState) (saleId : Nat) (items : List ReturnItemInput)
    (now : Int) : Except AppError (TenantState × Sale) :=
  match st.sales.find? (fun s => s.id = saleId) with
  | none => .error (.generic "Sale not found")
  | some sale =>
    if sale.status = SaleStatus.returned then
      .error (.generic "Sale already fully returned")
    else
      match processReturnItems now items sale.items st.batches 0 with
      | .error e => .error e
      | .ok (items', batches', totalReturnAmount) =>
        let allItemsReturned := items'.all (fun it => it.quantity = 0)
        let sale' :=
          { sale with
              items := items'
              status := if allItemsReturned then SaleStatus.returned else SaleStatus.partReturn
              grandTotal := sale.grandTotal - totalReturnAmount }
        let sales' := st.sales.map (fun s => if s.id = saleId then sale' else s)
        let customers' :=
          match sale.customerId with
          | some cid =>
              st.customers.map (fun c =>
                if c.id = cid then
                  { c with
                      totalPurchases := c.totalPurchases - totalReturnAmount
                      loyaltyPoints := c.loyaltyPoints - ((⌊totalReturnAmount / 100⌋ : ℤ) : ℚ) }
                else c)
          | none => st.customers
        .ok ({ st with sales := sales', batches := batches', customers := customers' }, sale')

/-- The batch restock of the legacy, non-transactional `returnSale` variant
(second document of sales/service.ts, lines 876-879): a bare
`InventoryBatch.findByIdAndUpdate(batchId, { $inc: { quantity } })`.
`findByIdAndUpdate` does not run document middleware, so the schema's
pre-save status hook is bypassed and `status` is left as it was. -/
def legacyReturnRestock (b : Batch) (returnQty : ℚ) : Batch :=
  { b with quantity := b.quantity + returnQty }

/-- A purchase line item (`items` subdocument of a Purchase,
purchase/service.ts lines 181-196). -/
structure PurchaseItem where
  medicineId : Nat
  medicineName : String
  batchNumber : String
  quantity : ℚ
  freeQuantity : ℚ
  purchasePrice : ℚ
  sellingPrice : ℚ
  mrp : ℚ
  expiryDate : Int
  receivedQuantity : ℚ
  receivedFreeQuantity : ℚ
  alertThreshold : Option ℚ
  total : ℚ
deriving DecidableEq, Repr

/-- A payment-ledger entry (`payments` subdocument,
purchase/service.ts lines 246-256 and 637-644). -/
structure PaymentEntry where
  amount : ℚ
  method : String
  paidAt : Int
deriving DecidableEq, Repr

/-- A purchase document (Purchase model), with the fields the purchase
service reads and writes. -/
structure PurchaseDoc where
  id : Nat
  purchaseOrderNumber : String
  supplierId : Nat
  orderDate : Int
  receivedDate : Option Int
  items : List PurchaseItem
  subtotal : ℚ
  discount : ℚ
  tax : ℚ
  grandTotal : ℚ
  amountPaid : ℚ
  dueAmount : ℚ
  paymentStatus : PayStatus
  status : PurchaseStatus
  payments : List PaymentEntry
deriving DecidableEq, Repr

/-- A supplier document; the running aggregates mutated by the purchase
service. -/
structure Supplier where
  id : Nat
  companyName : String
  isActive : Bool
  currentDue : ℚ
  totalPurchases : ℚ
  lastPurchaseDate : Option Int
deriving DecidableEq, Repr

/-- The tenant-partition state touched by the purchase flow.  Daily
summaries are (day-start timestamp, totalPurchases) pairs. -/
structure PurchTenantState where
  purchases : List PurchaseDoc
  batches : List Batch
  suppliers : List Supplier
  dailySummaries : List (Int × ℚ)
deriving DecidableEq, Repr

/-- `PurchaseService.resolvePaymentStatus` (purchase/service.ts lines
21-31). -/
def resolvePaymentStatus (grandTotal amountPaid : ℚ) : PayStatus :=
  if amountPaid ≥ grandTotal then PayStatus.paid
  else if amountPaid > 0 then PayStatus.part
  else PayStatus.pending

/-- The financial tail of `PurchaseService.createPurchase`
(purchase/service.ts lines 67-79 for the non-negativity validation and
201-226 for the totals): returns `(grandTotal, dueAmount, paymentStatus)`
for the created purchase, or the validation error raised before any
document is written. -/
def createPurchaseFinancials (subtotal discount tax amountPaid : ℚ)
    (hasPaymentMethod : Bool) : Except AppError (ℚ × ℚ × PayStatus) :=
  if discount < 0 then .error (.validation "discount" "discount must be at least 0")
  else if tax < 0 then .error (.validation "tax" "tax must be at least 0")
  else if amountPaid < 0 then .error (.validation "amountPaid" "amountPaid must be at least 0")
  else if discount > subtotal then .error (.validation "discount" "Discount cannot exceed subtotal")
  else
    let grandTotal := subtotal - discount + tax
    if grandTotal < 0 then .error (.validation "grandTotal" "Grand total cannot be negative")
    else if amountPaid > grandTotal then
      .error (.validation "amountPaid" "Amount paid cannot exceed grand total")
    else if amountPaid > 0 ∧ ¬hasPaymentMethod then
      .error (.validation "initialPaymentMethod"
        "Payment method is required when amount paid is provided")
    else
      .ok (grandTotal, max 0 (grandTotal - amountPaid),
        resolvePaymentStatus grandTotal amountPaid)

/-- `PurchaseService.generatePurchaseOrderNumber` (purchase/service.ts lines
33-47): an application-level read (countDocuments over the order-date day)
followed by `count + 1` — not an atomic increment-and-read.  Days are UTC
here. -/
def dayStartMs (t : Int) : Int := ((t.toNat / 86400000 : Nat) : Int) * 86400000

def generatePurchaseOrderNumber (purchases : List PurchaseDoc) (orderDate : Int) : String :=
  let count :=
    (purchases.filter (fun p => decide (dayStartMs p.orderDate = dayStartMs orderDate))).length
  "PO-" ++ dateStrOfMs orderDate ++ "-" ++ padStart4 (toString (count + 1))

/-- `PurchaseService.recordPayment` (purchase/service.ts lines 592-667), as
a function of the purchase document: the guards in source order, then the
ledger append, the `amountPaid`/`dueAmount`/`paymentStatus` recomputation
and the RECEIVED→COMPLETED transition.  The second component of the result
is the `$inc` applied to the supplier's `currentDue` (line 663). -/
def recordPayment (p : PurchaseDoc) (amount : ℚ) (paymentMethod : Option String)
    (paidAt : Int) : Except AppError (PurchaseDoc × ℚ) :=
  if amount < 1 / 100 then
    .error (.validation "amount" "amount must be at least 0.01")
  else if p.status = PurchaseStatus.cancelled then
    .error (.validation "status" "Cannot add payment to a cancelled purchase")
  else if p.paymentStatus = PayStatus.paid ∨ p.dueAmount ≤ 0 then
    .error (.validation "amount" "Purchase is already fully paid")
  else if amount > p.dueAmount then
    .error (.validation "amount" "Payment exceeds remaining due amount")
  else
    match paymentMethod with
    | none => .error (.validation "paymentMethod" "Payment method is required")
    | some m =>
      let p1 := { p with payments := p.payments ++ [PaymentEntry.mk amount m paidAt] }
      let p2 := { p1 with amountPaid := p1.amountPaid + amount }
      let p3 :=
        { p2 with
            dueAmount := max 0 (p2.grandTotal - p2.amountPaid)
            paymentStatus := resolvePaymentStatus p2.grandTotal p2.amountPaid }
      let p4 :=
        if p3.status = PurchaseStatus.received ∧ p3.paymentStatus = PayStatus.paid then
          { p3 with status := PurchaseStatus.completed }
        else p3
      .ok (p4, -amount)

/-- `PurchaseService.cancelPurchase` (purchase/service.ts lines 669-715):
guards, then the purchase write and the supplier `$inc` reversal, returned
as `(purchase', currentDue delta, totalPurchases delta)`. -/
def cancelPurchase (p : PurchaseDoc) : Except AppError (PurchaseDoc × ℚ × ℚ) :=
  if p.status = PurchaseStatus.cancelled then
    .error (.validation "status" "Purchase already cancelled")
  else if p.status = PurchaseStatus.received ∨ p.status = PurchaseStatus.completed then
    .error (.validation "status" "Cannot cancel a received purchase order")
  else
    .ok ({ p with status := PurchaseStatus.cancelled, paymentStatus := PayStatus.pending },
      -p.dueAmount, -p.grandTotal)

/-- The no-override defaulting pass of `receivePurchase`
(purchase/service.ts lines 494-499): `receivedQuantity` falls back to the
ordered quantity through JavaScript `||` (0 is falsy); `receivedFreeQuantity`
falls back through `??`, which keeps the 0 the purchase was created with;
the line total is recomputed from the received quantity. -/
def applyReceiveDefaults (items : List PurchaseItem) : List PurchaseItem :=
  items.map (fun it =>
    let recQ := if it.receivedQuantity = 0 then it.quantity else it.receivedQuantity
    let recF := it.receivedFreeQuantity
    let recQ' := if recQ = 0 then it.quantity else recQ
    { it with
        receivedQuantity := recQ
        receivedFreeQuantity := recF
        total := recQ' * it.purchasePrice })

/-- The per-item inventory upsert of `receivePurchase` (purchase/service.ts
lines 507-545): skip items with nothing received; merge into an existing
`(medicineId, batchNumber)` batch (adding to quantity and initialQuantity and
overwriting pricing, expiry, threshold, supplier and purchase date) or create
a new batch.  Both the merge save and the create run the schema's pre-save
status hook.  A created batch's id is synthesised from the list length. -/
def upsertReceivedBatch (now : Int) (supplierId : Nat) (receiveDate : Int)
    (bs : List Batch) (it : PurchaseItem) : List Batch :=
  let totalReceived := it.receivedQuantity + it.receivedFreeQuantity
  if totalReceived ≤ 0 then bs
  else
    match bs.find? (fun b =>
        decide (b.medicineId = it.medicineId ∧ b.batchNumber = it.batchNumber)) with
    | some b =>
        updateBatchIn bs (saveBatch now
          { b with
              quantity := b.quantity + totalReceived
              initialQuantity := b.initialQuantity + totalReceived
              purchasePrice := it.purchasePrice
              mrp := it.mrp
              sellingPrice := it.sellingPrice
              expiryDate := it.expiryDate
              alertThreshold := (it.alertThreshold.getD b.alertThreshold)
              supplierId := some supplierId
              purchaseDate := receiveDate })
    | none =>
        bs ++ [saveBatch now
          { id := bs.length
            medicineId := it.medicineId
            batchNumber := it.batchNumber
            expiryDate := it.expiryDate
            purchaseDate := receiveDate
            supplierId := some supplierId
            purchasePrice := it.purchasePrice
            mrp := it.mrp
            sellingPrice := it.sellingPrice
            quantity := totalReceived
            initialQuantity := totalReceived
            alertThreshold := (it.alertThreshold.getD 10)
            status := InventoryStatus.active }]

/-- Replace the purchase with the same id. -/
def updatePurchaseIn (ps : List PurchaseDoc) (p : PurchaseDoc) : List PurchaseDoc :=
  ps.map (fun x => if x.id = p.id then p else x)

/-- Upsert into the per-day purchase summary, `DailySummary.findOneAndUpdate`
with `$inc: { totalPurchases }` (purchase/service.ts lines 565-572). -/
def dailyInc : List (Int × ℚ) → Int → ℚ → List (Int × ℚ)
  | [], day, amt => [(day, amt)]
  | e :: rest, day, amt =>
      if e.1 = day then (day, e.2 + amt) :: rest else e :: dailyInc rest day amt

/-- Set a supplier's `lastPurchaseDate` (purchase/service.ts lines 558-560). -/
def supplierSetLastPurchase (ss : List Supplier) (supplierId : Nat) (d : Int) :
    List Supplier :=
  ss.map (fun s => if s.id = supplierId then { s with lastPurchaseDate := some d } else s)

/-- `PurchaseService.receivePurchase` with no item overrides
(purchase/service.ts lines 466-590), decomposed into its guards and its
sequence of individual document writes.  The method opens no session and no
transaction: each returned write is an independently committed storage
operation, applied in source order — one batch upsert per line item, then
the purchase save, then the supplier update, then the daily-summary upsert.
The guards (lines 479-489) run before any write. -/
def receivePurchaseWrites (purchaseId : Nat) (receiveDate now : Int)
    (st : PurchTenantState) :
    Except AppError (List (PurchTenantState → PurchTenantState)) :=
  match st.purchases.find? (fun p => p.id = purchaseId) with
  | none => .error (.generic "Purchase not found")
  | some p =>
    if p.status = PurchaseStatus.cancelled then
      .error (.validation "status" "Cannot receive a cancelled purchase order")
    else if p.status = PurchaseStatus.received ∨ p.status = PurchaseStatus.completed then
      .error (.validation "status" "Purchase already received")
    else
      let items' := applyReceiveDefaults p.items
      let p' :=
        { p with
            items := items'
            status :=
              if p.dueAmount > 0 then PurchaseStatus.received else PurchaseStatus.completed
            receivedDate := some receiveDate }
      let batchWrites :=
        items'.map (fun it => fun s : PurchTenantState =>
          { s with batches := upsertReceivedBatch now p.supplierId receiveDate s.batches it })
      .ok (batchWrites ++
        [fun s => { s with purchases := updatePurchaseIn s.purchases p' },
         fun s => { s with suppliers := supplierSetLastPurchase s.suppliers p.supplierId receiveDate },
         fun s => { s with dailySummaries := dailyInc s.dailySummaries (dayStartMs receiveDate) p.grandTotal }])

/-- Apply the first `k` of a write sequence — the state an observer (or the
failed method itself) sees if an error interrupts the sequence after `k`
writes; without a transaction those `k` writes are already committed. -/
def applyWritesUpTo (ws : List (σ → σ)) (k : Nat) (s : σ) : σ :=
  (ws.take k).foldl (fun s f => f s) s

/-- `receivePurchase` run to completion (all writes applied). -/
def receivePurchase (purchaseId : Nat) (receiveDate now : Int)
    (st : PurchTenantState) : Except AppError PurchTenantState :=
  match receivePurchaseWrites purchaseId receiveDate now st with
  | .error e => .error e
  | .ok ws => .ok (applyWritesUpTo ws ws.length st)

/-- The transaction options a commerce method runs its writes under. -/
structure TxSpec where
  inTransaction : Bool
  snapshotReadConcern : Bool
  majorityWriteConcern : Bool
deriving DecidableEq, Repr

/-- The five mutating commerce operations. -/
inductive CommerceOp where
  | createSaleOp
  | returnSaleOp
  | receivePurchaseOp
  | recordPaymentOp
  | cancelPurchaseOp
deriving DecidableEq, Repr

/-- How each commerce method actually executes its writes, read off the
source: `createSale` and the transactional `returnSale` wrap every write in
`session.withTransaction` with `readConcern: snapshot` and `writeConcern:
majority` (sales/service.ts lines 39-186 and 320-398); `receivePurchase`,
`recordPayment` and `cancelPurchase` open no session at all — every
`findById`/`save`/`findByIdAndUpdate`/`findOneAndUpdate` in
purchase/service.ts lines 466-715 is a bare, individually committed
operation. -/
def opTxSpec : CommerceOp → TxSpec
  | CommerceOp.createSaleOp => ⟨true, true, true⟩
  | CommerceOp.returnSaleOp => ⟨true, true, true⟩
  | CommerceOp.receivePurchaseOp => ⟨false, false, false⟩
  | CommerceOp.recordPaymentOp => ⟨false, false, false⟩
  | CommerceOp.cancelPurchaseOp => ⟨false, false, false⟩

/-- A minimal ORDERED purchase document used by the concurrency and
state-machine scenarios: one line of 10 units at price 100, fully unpaid. -/
def mkOrderedPurchase (id : Nat) (orderDate : Int) (poNumber : String) : PurchaseDoc :=
  { id := id
    purchaseOrderNumber := poNumber
    supplierId := 1
    orderDate := orderDate
    receivedDate := none
    items := [{ medicineId := 1, medicineName := "Napa", batchNumber := "B-001",
                quantity := 10, freeQuantity := 0, purchasePrice := 100,
                sellingPrice := 120, mrp := 130, expiryDate := orderDate + 100 * thirtyDaysMs,
                receivedQuantity := 0, receivedFreeQuantity := 0,
                alertThreshold := none, total := 1000 }]
    subtotal := 1000
    discount := 0
    tax := 0
    grandTotal := 1000
    amountPaid := 0
    dueAmount := 1000
    paymentStatus := PayStatus.pending
    status := PurchaseStatus.ordered
    payments := [] }

/-- The two storage operations of purchase-order numbering, as seen by two
concurrent `createPurchase` callers: a `read` is the `countDocuments` of
`generatePurchaseOrderNumber` (the caller computes and keeps its number),
an `insert` is the later `Purchase.create`.  Each event is one storage
operation; any interleaving respecting each caller's read-before-insert
order is a possible execution, because the two operations do not run inside
a transaction. -/
inductive PoEvent where
  | read1
  | read2
  | insert1
  | insert2
deriving DecidableEq, Repr

/-- State of a two-caller purchase-order-numbering run. -/
structure PoRun where
  purchases : List PurchaseDoc
  num1 : Option String
  num2 : Option String
deriving Repr

def poStep (orderDate : Int) (st : PoRun) : PoEvent → PoRun
  | PoEvent.read1 =>
      { st with num1 := some (generatePurchaseOrderNumber st.purchases orderDate) }
  | PoEvent.read2 =>
      { st with num2 := some (generatePurchaseOrderNumber st.purchases orderDate) }
  | PoEvent.insert1 =>
      { st with purchases :=
          st.purchases ++ [mkOrderedPurchase st.purchases.length orderDate (st.num1.getD "")] }
  | PoEvent.insert2 =>
      { st with purchases :=
          st.purchases ++ [mkOrderedPurchase st.purchases.length orderDate (st.num2.getD "")] }

def runPoSchedule (orderDate : Int) (evs : List PoEvent) : PoRun :=
  evs.foldl (poStep orderDate) ⟨[], none, none⟩

/-- Issue `n` consecutive values from the atomic ("sale", date) counter via
`bumpSeq` — since each `bumpSeq` is one indivisible storage operation, every
execution of `n` callers, concurrent or not, is one such sequence. -/
def issueSeqN : Nat → List CounterSeqRow → String → String → List CounterSeqRow × List Int
  | 0, rows, _, _ => (rows, [])
  | n + 1, rows, scope, date =>
      let first := bumpSeq rows scope date
      let rest := issueSeqN n first.1 scope date
      (rest.1, first.2 :: rest.2)

/-- Outcome of one transaction attempt, as classified by the retry loop of
`createSale` (sales/service.ts lines 188-193): success, an error carrying
the `TransientTransactionError` label, or any other error. -/
inductive AttemptResult where
  | success
  | transientErr
  | fatalErr
deriving DecidableEq, Repr

/-- The retry loop of `createSale` (sales/service.ts lines 36-194):
`while (attempts < 3)` — bump `attempts`, run the transaction, break on
success, `continue` only when the error has the transient label and
`attempts < 3`, otherwise rethrow.  `outcomes k` is the result of the k-th
attempt (0-based); the function returns how many attempts ran and the
surfaced result.  The fuel argument equals the remaining loop iterations. -/
def withTransactionRetry (limit : Nat) (outcomes : Nat → AttemptResult) :
    Nat → Nat → Nat × AttemptResult
  | attempts, 0 => (attempts, AttemptResult.transientErr)
  | attempts, fuel + 1 =>
      let a := attempts + 1
      match outcomes attempts with
      | AttemptResult.success => (a, AttemptResult.success)
      | AttemptResult.fatalErr => (a, AttemptResult.fatalErr)
      | AttemptResult.transientErr =>
          if a < limit then withTransactionRetry limit outcomes a fuel
          else (a, AttemptResult.transientErr)

/-- `createSale`'s attempt discipline: up to 3 attempts. -/
def createSaleAttempts (outcomes : Nat → AttemptResult) : Nat × AttemptResult :=
  withTransactionRetry 3 outcomes 0 3

/-- `returnSale`'s attempt discipline (sales/service.ts lines 319-401): a
single `session.withTransaction` call with no surrounding loop — one
attempt, whose outcome is surfaced as is. -/
def returnSaleAttempts (outcomes : Nat → AttemptResult) : Nat × AttemptResult :=
  (1, outcomes 0)

/-- A cached envelope `{data, cachedAt}` (cache utils, errorHandler.ts
second document, lines 73-76).  `data` is an `Option` to mirror the
`envelope.data !== undefined` check of line 133. -/
structure Envelope (α : Type) where
  data : Option α
  cachedAt : Int
deriving DecidableEq, Repr

/-- The `{data, fromCache, isRevalidating}` result of `swrFetch` (lines
86-90). -/
structure SwrResult (α : Type) where
  data : α
  fromCache : Bool
  isRevalidating : Bool
deriving DecidableEq, Repr

/-- Everything observable about one `swrFetch` call: the value returned (or
the foreground loader's error), the cache entry afterwards, how many
background loader invocations were spawned, and whether a background
failure was raised to the caller. -/
structure SwrOutcome (α : Type) where
  result : Except Unit (SwrResult α)
  cache : Option (Envelope α)
  backgroundLoads : Nat
  backgroundFailureRaised : Bool
deriving Repr

/-- The cache-miss tail of `swrFetch` (lines 158-164): call the loader in
the foreground, store a fresh envelope, return `fromCache: false`.  A
foreground loader failure propagates to the caller. -/
def swrMiss (cached : Option (Envelope α)) (now : Int) (loader : Except Unit α) :
    SwrOutcome α :=
  match loader with
  | .ok fresh => ⟨.ok ⟨fresh, false, false⟩, some ⟨some fresh, now⟩, 0, false⟩
  | .error e => ⟨.error e, cached, 0, false⟩

/-- `swrFetch` (errorHandler.ts second document, lines 123-165).
`staleSecondsOpt = none` models an omitted `staleSeconds` option, defaulted
to `Math.floor(ttlSeconds / 2)`.  `loader` is the outcome `fetcher()` would
produce if invoked (foreground on a miss, background on a stale hit).  On a
stale hit the background refresh runs exactly once; its failure is logged
(line 151) and never raised to the caller, who has already received the
stale value. -/
def swrFetch (cached : Option (Envelope α)) (now : Int) (ttlSeconds : Int)
    (staleSecondsOpt : Option Int) (loader : Except Unit α) : SwrOutcome α :=
  let staleSeconds := staleSecondsOpt.getD (ttlSeconds / 2)
  match cached with
  | some env =>
    match env.data with
    | some d =>
      let ageMs := now - env.cachedAt
      if staleSeconds > 0 ∧ ageMs > staleSeconds * 1000 then
        match loader with
        | .ok fresh => ⟨.ok ⟨d, true, true⟩, some ⟨some fresh, now⟩, 1, false⟩
        | .error _ => ⟨.ok ⟨d, true, true⟩, some env, 1, false⟩
      else
        ⟨.ok ⟨d, true, false⟩, some env, 0, false⟩
    | none => swrMiss cached now loader
  | none => swrMiss cached now loader

/-- A JSON-like parameter value, the domain of `buildCacheHash` (cache
utils).  Numbers are integers here (the cache parameters the repository
hashes are limits, flags and strings). -/
inductive Json where
  | null
  | bool (b : Bool)
  | num (n : Int)
  | str (s : String)
  | arr (xs : List Json)
  | obj (kvs : List (String × Json))
deriving Repr

/-- Byte-wise lexicographic comparison of character lists; the embedding of
the `a.localeCompare(b)`-based comparator of `stableStringify` (cache utils
line 103) as a total order on strings. -/
def charListLE : List Char → List Char → Bool
  | [], _ => true
  | _ :: _, [] => false
  | a :: as, b :: bs =>
      if a.toNat < b.toNat then true
      else if b.toNat < a.toNat then false
      else charListLE as bs

def strLE (a b : String) : Bool := charListLE a.toList b.toList

/-- Insert a (key, serialized value) pair into a key-sorted list. -/
def orderedInsertPair (p : String × String) :
    List (String × String) → List (String × String)
  | [] => [p]
  | q :: rest => if strLE p.1 q.1 then p :: q :: rest else q :: orderedInsertPair p rest

/-- `entries.sort((⟨a⟩, ⟨b⟩) => a.localeCompare(b))` — sort pairs by key
(insertion sort; any comparison sort computes the same key-sorted list on
the duplicate-free keys of a JavaScript object). -/
def sortPairs : List (String × String) → List (String × String)
  | [] => []
  | p :: rest => orderedInsertPair p (sortPairs rest)

/-- JSON string escaping of `JSON.stringify` for the characters that occur
in cache keys (quote, backslash, the common control characters). -/
def escapeJsonChar (c : Char) : String :=
  if c = '"' then "\\\""
  else if c = '\\' then "\\\\"
  else if c = '\n' then "\\n"
  else if c = '\r' then "\\r"
  else if c = '\t' then "\\t"
  else String.singleton c

def quoteStr (s : String) : String :=
  "\"" ++ String.join (s.toList.map escapeJsonChar) ++ "\""

mutual
/-- `stableStringify` (cache utils, errorHandler.ts second document, lines
94-108): primitives via `JSON.stringify`, arrays elementwise in order,
objects as their entries sorted by key.  The source sorts the raw entries
and then serializes each; here each entry is serialized and the (key,
serialized value) pairs are then sorted by key — the comparator only reads
keys and a JavaScript object's keys are duplicate-free, so the two orders
of operations produce the same list. -/
def stableStringify : Json → String
  | Json.null => "null"
  | Json.bool b => if b then "true" else "false"
  | Json.num n => toString n
  | Json.str s => quoteStr s
  | Json.arr xs => "[" ++ String.intercalate "," (stringifyList xs) ++ "]"
  | Json.obj kvs =>
      "\x7b" ++ String.intercalate ","
        ((sortPairs (stringifyEntries kvs)).map (fun p => quoteStr p.1 ++ ":" ++ p.2)) ++
        "\x7d"

/-- Serialize the elements of an array. -/
def stringifyList : List Json → List String
  | [] => []
  | j :: rest => stableStringify j :: stringifyList rest

/-- Serialize the values of an object's entries. -/
def stringifyEntries : List (String × Json) → List (String × String)
  | [] => []
  | (k, v) :: rest => (k, stableStringify v) :: stringifyEntries rest
end

/-- UTF-8 encoding of one character. -/
def utf8Char (c : Char) : List Nat :=
  let n := c.toNat
  if n < 128 then [n]
  else if n < 2048 then [192 + n / 64, 128 + n % 64]
  else if n < 65536 then [224 + n / 4096, 128 + (n / 64) % 64, 128 + n % 64]
  else [240 + n / 262144, 128 + (n / 4096) % 64, 128 + (n / 64) % 64, 128 + n % 64]

def utf8Bytes (s : String) : List Nat := (s.toList.map utf8Char).flatten

/-- The base64url alphabet. -/
def b64Char (n : Nat) : Char :=
  if n < 26 then Char.ofNat (65 + n)
  else if n < 52 then Char.ofNat (97 + (n - 26))
  else if n < 62 then Char.ofNat (48 + (n - 52))
  else if n = 62 then '-' else '_'

/-- `Buffer.from(bytes).toString('base64url')` — unpadded base64url. -/
def base64urlEncode : List Nat → List Char
  | [] => []
  | [b1] => [b64Char (b1 / 4), b64Char (b1 % 4 * 16)]
  | [b1, b2] => [b64Char (b1 / 4), b64Char (b1 % 4 * 16 + b2 / 16), b64Char (b2 % 16 * 4)]
  | b1 :: b2 :: b3 :: rest =>
      b64Char (b1 / 4) :: b64Char (b1 % 4 * 16 + b2 / 16) ::
        b64Char (b2 % 16 * 4 + b3 / 64) :: b64Char (b3 % 64) :: base64urlEncode rest

/-- `buildCacheHash` (cache utils lines 110-113): canonical serialization,
then base64url of its UTF-8 bytes. -/
def buildCacheHash (input : Json) : String :=
  String.mk (base64urlEncode (utf8Bytes (stableStringify input)))

/-- Two parameter values are semantically identical up to object-key
insertion order: equal atoms, arrays pointwise related in order, and
objects whose (duplicate-free-keyed) entry lists agree as finite maps —
some permutation of the first object's entries matches the second entry by
entry, with equal keys and related values. -/
inductive JsonEquiv : Json → Json → Prop where
  | null : JsonEquiv Json.null Json.null
  | bool (b : Bool) : JsonEquiv (Json.bool b) (Json.bool b)
  | num (n : Int) : JsonEquiv (Json.num n) (Json.num n)
  | str (s : String) : JsonEquiv (Json.str s) (Json.str s)
  | arr (xs ys : List Json) (hlen : xs.length = ys.length)
      (h : ∀ p ∈ xs.zip ys, JsonEquiv p.1 p.2) :
      JsonEquiv (Json.arr xs) (Json.arr ys)
  | obj (kvs₁ kvs' kvs₂ : List (String × Json)) (hperm : kvs₁.Perm kvs')
      (hnd : (kvs₁.map Prod.fst).Nodup)
      (hlen : kvs'.length = kvs₂.length)
      (hkeys : ∀ p ∈ kvs'.zip kvs₂, p.1.1 = p.2.1)
      (hvals : ∀ p ∈ kvs'.zip kvs₂, JsonEquiv p.1.2 p.2.2) :
      JsonEquiv (Json.obj kvs₁) (Json.obj kvs₂)

/-! ## Concrete scenarios -/

/-- A fixed "now": 2023-11-14T22:13:20Z in epoch milliseconds. -/
def happyNow : Int := 1700000000000

/-- Batch `B1` of the spec's happy-path scenario: quantity 10, selling price
50, far-future expiry. -/
def happyBatch : Batch :=
  { id := 1, medicineId := 1, batchNumber := "B1", expiryDate := 1800000000000,
    purchaseDate := 1690000000000, supplierId := some 1, purchasePrice := 40,
    mrp := 55, sellingPrice := 50, quantity := 10, initialQuantity := 10,
    alertThreshold := 10, status := InventoryStatus.active }

/-- Tenant state for the happy path: batch `B1`, its medicine, a default
active counter, no prior sales (so the day's invoice sequence is fresh). -/
def happyState : TenantState :=
  { batches := [happyBatch], medicines := [⟨1, "Napa"⟩], customers := [],
    counters := [⟨1, "Main", CounterStatus.active, true, none⟩],
    seqRows := [], sales := [] }

/-- The happy-path request: one line of quantity 3 from batch `B1`,
`amountPaid = 150`, cash. -/
def happyDto : CreateSaleDTO :=
  { customerId := none, items := [⟨1, 1, 3, none, none⟩], totalDiscount := none,
    paymentMethod := PaymentMethod.cash, amountPaid := 150, counterId := none }

/-- The state and sale produced by the happy-path `createSale`. -/
def happyRun : TenantState × Sale :=
  ((createSale happyState happyDto happyNow).toOption).get (by decide)

/-- A customer with no dues, loyalty points or purchase history. -/
def creditCustomer : Customer :=
  { id := 1, name := "Rahim", phone := "01700000000", loyaltyPoints := 0,
    totalPurchases := 0, lastPurchaseDate := none, dueAmount := 0 }

/-- Tenant state for the credit-sale/return scenario. -/
def retState : TenantState :=
  { batches := [happyBatch], medicines := [⟨1, "Napa"⟩], customers := [creditCustomer],
    counters := [⟨1, "Main", CounterStatus.active, true, none⟩],
    seqRows := [], sales := [] }

/-- A credit sale of 5 units attached to the customer (grand total 250, paid
0, method credit). -/
def creditDto : CreateSaleDTO :=
  { customerId := some 1, items := [⟨1, 1, 5, none, none⟩], totalDiscount := none,
    paymentMethod := PaymentMethod.credit, amountPaid := 0, counterId := none }

/-- The state and sale after the credit sale. -/
def creditRun : TenantState × Sale :=
  ((createSale retState creditDto happyNow).toOption).get (by decide)

/-- The state and sale after returning 2 of the 5 units of the credit sale. -/
def creditReturnRun : TenantState × Sale :=
  ((returnSale creditRun.1 0 [⟨0, 2⟩] happyNow).toOption).get (by decide)

/-- A batch that has sold out: quantity 0, status out_of_stock, expiry far
in the future. -/
def staleBatch : Batch :=
  { id := 7, medicineId := 1, batchNumber := "B7", expiryDate := 1800000000000,
    purchaseDate := 1690000000000, supplierId := none, purchasePrice := 40,
    mrp := 55, sellingPrice := 50, quantity := 0, initialQuantity := 10,
    alertThreshold := 10, status := InventoryStatus.outOfStock }

/-! ## Helper lemmas -/

/-- Along the successful path of the item loop, the accumulated subtotal is
the sum of the captured line totals. -/
theorem processSaleItems_sum (now : Int) (meds : List Medicine) :
    ∀ (items : List SaleItemInput) (batches bs : List Batch) (sis : List SaleItem) (sub : ℚ),
      processSaleItems now meds items batches = .ok (bs, sis, sub) →
      (sis.map SaleItem.total).sum = sub := by
  intro items
  induction items with
  | nil =>
    intro batches bs sis sub h
    simp only [processSaleItems] at h
    cases h
    simp
  | cons item rest ih =>
    intro batches bs sis sub h
    simp only [processSaleItems] at h
    split at h
    · exact Except.noConfusion h
    · split at h
      · exact Except.noConfusion h
      · split at h
        · exact Except.noConfusion h
        · split at h
          · exact Except.noConfusion h
          · rename_i heq
            cases h
            simp only [List.map_cons, List.sum_cons]
            rw [ih _ _ _ _ heq]

/-- Every sale `createSale` commits satisfies the §3 totals invariant. -/
theorem createSale_ok_totals (st : TenantState) (data : CreateSaleDTO) (now : Int)
    (st' : TenantState) (sale : Sale) (h : createSale st data now = .ok (st', sale)) :
    sale.tax = 0 ∧ sale.grandTotal = sale.subtotal - sale.totalDiscount + sale.tax ∧
    (sale.items.map SaleItem.total).sum = sale.subtotal := by
  simp only [createSale] at h
  split at h
  · exact Except.noConfusion h
  · split at h
    · exact Except.noConfusion h
    · split at h
      · exact Except.noConfusion h
      · rename_i bs sis sub heq
        split at h
        · exact Except.noConfusion h
        · split at h
          · exact Except.noConfusion h
          · cases h
            exact ⟨rfl, rfl, processSaleItems_sum now st.medicines data.items st.batches _ _ _ heq⟩

/-! ## Claims -/

/-- C1: for every committed sale, `grandTotal = subtotal - totalDiscount +
tax` with `tax = 0` and the line totals sum to `subtotal`; and on the happy
path (one line of quantity 3 from a batch with quantity 10 and sellingPrice
50, amountPaid 150, cash, first sale of the day) the sale has grandTotal
150, changeReturned 0, the batch quantity drops to 7, and the invoice
number is `INV-<today>-0001`. -/
theorem createSale_totals_and_happy_path :
    (∀ (st : TenantState) (data : CreateSaleDTO) (now : Int) (st' : TenantState) (sale : Sale),
        createSale st data now = .ok (st', sale) →
        sale.tax = 0 ∧
        sale.grandTotal = sale.subtotal - sale.totalDiscount + sale.tax ∧
        (sale.items.map SaleItem.total).sum = sale.subtotal) ∧
    (createSale happyState happyDto happyNow).map (fun r => r.2.grandTotal) = .ok 150 ∧
    (createSale happyState happyDto happyNow).map (fun r => r.2.changeReturned) = .ok 0 ∧
    (createSale happyState happyDto happyNow).map (fun r => r.1.batches.map Batch.quantity) =
      .ok [7] ∧
    (createSale happyState happyDto happyNow).map (fun r => r.2.invoiceNumber) =
      .ok ("INV-" ++ dateStrOfMs happyNow ++ "-0001") :=
  ⟨fun st data now st' sale h => createSale_ok_totals st data now st' sale h,
   by decide, by decide, by decide, by decide⟩

/-- Witness for C1: the universal part applied to the happy-path run. -/
theorem createSale_totals_and_happy_path_witness :
    happyRun.2.tax = 0 ∧
    happyRun.2.grandTotal = happyRun.2.subtotal - happyRun.2.totalDiscount + happyRun.2.tax ∧
    (happyRun.2.items.map SaleItem.total).sum = happyRun.2.subtotal :=
  createSale_totals_and_happy_path.1 happyState happyDto happyNow happyRun.1 happyRun.2
    (by decide)

/-- C2: the pre-save hook does make `status` the pure function of
(quantity, expiryDate, now) on every `save()` path (first conjunct), but the
legacy `returnSale`'s restock — `findByIdAndUpdate` with `$inc` at
sales/service.ts (second document) lines 876-879 — bypasses document
middleware: restocking 3 units into a sold-out batch leaves `status =
out_of_stock` while the pure function yields `active`, so a stale status
survives that mutation, contradicting the documented invariant the hook
exists to maintain. -/
theorem legacyReturnRestock_stale_status :
    (∀ (b : Batch) (now : Int),
        (saveBatch now b).status = computeBatchStatus b.quantity b.expiryDate now) ∧
    (legacyReturnRestock staleBatch 3).quantity = 3 ∧
    (legacyReturnRestock staleBatch 3).status = InventoryStatus.outOfStock ∧
    computeBatchStatus (legacyReturnRestock staleBatch 3).quantity
      (legacyReturnRestock staleBatch 3).expiryDate happyNow = InventoryStatus.active ∧
    (legacyReturnRestock staleBatch 3).status ≠
      computeBatchStatus (legacyReturnRestock staleBatch 3).quantity
        (legacyReturnRestock staleBatch 3).expiryDate happyNow :=
  ⟨fun _ _ => rfl, by decide, by decide, by decide, by decide⟩

/-- The transactional `returnSale` leaves every customer field except
`totalPurchases` and `loyaltyPoints` unchanged, for every customer row. -/
theorem returnSale_customers_frame (st : TenantState) (saleId : Nat)
    (items : List ReturnItemInput) (now : Int) (st' : TenantState) (sale' : Sale)
    (h : returnSale st saleId items now = .ok (st', sale')) :
    st'.customers.map Customer.dueAmount = st.customers.map Customer.dueAmount ∧
    st'.customers.map Customer.id = st.customers.map Customer.id ∧
    st'.customers.map Customer.name = st.customers.map Customer.name ∧
    st'.customers.map Customer.phone = st.customers.map Customer.phone ∧
    st'.customers.map Customer.lastPurchaseDate = st.customers.map Customer.lastPurchaseDate := by
  simp only [returnSale] at h
  split at h
  · exact Except.noConfusion h
  · rename_i sale hfind
    split at h
    · exact Except.noConfusion h
    · split at h
      · exact Except.noConfusion h
      · cases h
        cases hcid : sale.customerId with
        | none => simp [hcid]
        | some cid =>
          refine ⟨?_, ?_, ?_, ?_, ?_⟩ <;>
            · simp only [hcid, List.map_map]
              refine List.map_congr_left ?_
              intro c _
              by_cases hc : c.id = cid <;> simp [Function.comp, hc]

/-- A credit `createSale` increments the attached customer's `dueAmount` by
the sale's grand total (and no other customer's). -/
theorem createSale_credit_due (st : TenantState) (data : CreateSaleDTO) (now : Int)
    (st' : TenantState) (sale : Sale) (cid : Nat)
    (h : createSale st data now = .ok (st', sale))
    (hm : data.paymentMethod = PaymentMethod.credit)
    (hc : data.customerId = some cid) :
    st'.customers.map Customer.dueAmount =
      st.customers.map (fun c => if c.id = cid then c.dueAmount + sale.grandTotal else c.dueAmount) := by
  simp only [createSale] at h
  split at h
  · exact Except.noConfusion h
  · split at h
    · exact Except.noConfusion h
    · split at h
      · exact Except.noConfusion h
      · split at h
        · exact Except.noConfusion h
        · split at h
          · exact Except.noConfusion h
          · cases h
            simp only [hc, hm, List.map_map]
            refine List.map_congr_left ?_
            intro c _
            by_cases hcc : c.id = cid <;> simp [Function.comp, hcc]

/-- C10: a sale return never changes the attached customer's `dueAmount` —
even though a credit sale's creation increments it by the grand total
(second conjunct), `returnSale` touches only `totalPurchases` and
`loyaltyPoints`, leaving `dueAmount`, `id`, `name`, `phone` and
`lastPurchaseDate` of every customer unchanged (first conjunct). -/
theorem returnSale_customer_due_frame :
    (∀ (st : TenantState) (saleId : Nat) (items : List ReturnItemInput) (now : Int)
        (st' : TenantState) (sale' : Sale),
        returnSale st saleId items now = .ok (st', sale') →
        st'.customers.map Customer.dueAmount = st.customers.map Customer.dueAmount ∧
        st'.customers.map Customer.id = st.customers.map Customer.id ∧
        st'.customers.map Customer.name = st.customers.map Customer.name ∧
        st'.customers.map Customer.phone = st.customers.map Customer.phone ∧
        st'.customers.map Customer.lastPurchaseDate =
          st.customers.map Customer.lastPurchaseDate) ∧
    (∀ (st : TenantState) (data : CreateSaleDTO) (now : Int) (st' : TenantState)
        (sale : Sale) (cid : Nat),
        createSale st data now = .ok (st', sale) →
        data.paymentMethod = PaymentMethod.credit →
        data.customerId = some cid →
        st'.customers.map Customer.dueAmount =
          st.customers.map (fun c =>
            if c.id = cid then c.dueAmount + sale.grandTotal else c.dueAmount)) :=
  ⟨fun st saleId items now st' sale' h =>
      returnSale_customers_frame st saleId items now st' sale' h,
   fun st data now st' sale cid h hm hc =>
      createSale_credit_due st data now st' sale cid h hm hc⟩

/-- Witness for C10: the frame part applied to the concrete credit-sale
return (customer owes 250 on credit; returning 2 of 5 units leaves the due
untouched), and the credit part applied to the credit sale itself. -/
theorem returnSale_customer_due_frame_witness :
    (creditReturnRun.1.customers.map Customer.dueAmount =
      creditRun.1.customers.map Customer.dueAmount) ∧
    (creditRun.1.customers.map Customer.dueAmount =
      retState.customers.map (fun c =>
        if c.id = 1 then c.dueAmount + creditRun.2.grandTotal else c.dueAmount)) :=
  ⟨(returnSale_customer_due_frame.1 creditRun.1 0 [⟨0, 2⟩] happyNow
      creditReturnRun.1 creditReturnRun.2 (by decide)).1,
   returnSale_customer_due_frame.2 retState creditDto happyNow creditRun.1 creditRun.2 1
      (by decide) (by decide) (by decide)⟩

/-! ## Purchase and counter scenarios -/

/-- A RECEIVED purchase of grand total 1000 with 400 already paid: the
purchase of the due-lifecycle scenario after receipt. -/
def duePurchase : PurchaseDoc :=
  { mkOrderedPurchase 1 happyNow "PO-20231114-0001" with
      amountPaid := 400, dueAmount := 600, paymentStatus := PayStatus.part,
      status := PurchaseStatus.received,
      payments := [PaymentEntry.mk 400 "cash" happyNow] }

/-- The purchase and supplier delta after recording the 600 payment. -/
def duePaidRun : PurchaseDoc × ℚ :=
  ((recordPayment duePurchase 600 (some "cash") happyNow).toOption).get (by decide)

/-- A supplier with running aggregates. -/
def receivedSupplier : Supplier :=
  { id := 1, companyName := "ACME", isActive := true, currentDue := 1000,
    totalPurchases := 1000, lastPurchaseDate := none }

/-- An already-received purchase order. -/
def receivedPurchaseDoc : PurchaseDoc :=
  { mkOrderedPurchase 1 happyNow "PO-20231114-0001" with status := PurchaseStatus.received }

/-- Tenant state holding the already-received purchase. -/
def receivedState : PurchTenantState :=
  { purchases := [receivedPurchaseDoc], batches := [], suppliers := [receivedSupplier],
    dailySummaries := [] }

/-- Tenant state holding a still-ORDERED purchase, no batches yet. -/
def orderedState : PurchTenantState :=
  { purchases := [mkOrderedPurchase 1 happyNow "PO-20231114-0001"],
    batches := [], suppliers := [receivedSupplier], dailySummaries := [] }

/-- An attempt schedule whose first transaction attempt hits a transient
conflict and whose every later attempt would succeed. -/
def transientThenSuccess : Nat → AttemptResult := fun n =>
  if n = 0 then AttemptResult.transientErr else AttemptResult.success

/-! ## Counter-sequence lemmas -/

/-- The sequence value currently stored for a (scope, date) key; 0 when the
row does not exist yet (the schema default the upsert starts from). -/
def seqVal : List CounterSeqRow → String → String → Int
  | [], _, _ => 0
  | r :: rs, scope, date =>
      if r.scope = scope ∧ r.date = date then r.sequence else seqVal rs scope date

/-- `[start, start+1, ..., start+n-1]`. -/
def intRange (start : Int) : Nat → List Int
  | 0 => []
  | n + 1 => start :: intRange (start + 1) n

theorem intRange_mem_le : ∀ (n : Nat) (s x : Int), x ∈ intRange s n → s ≤ x := by
  intro n
  induction n with
  | zero => intro s x h; simp [intRange] at h
  | succ n ih =>
    intro s x h
    simp only [intRange, List.mem_cons] at h
    rcases h with rfl | h
    · exact le_refl x
    · exact le_trans (by omega) (ih (s + 1) x h)

/-- Consecutive integers are pairwise distinct. -/
theorem intRange_nodup : ∀ (n : Nat) (s : Int), (intRange s n).Nodup := by
  intro n
  induction n with
  | zero => intro s; simp [intRange]
  | succ n ih =>
    intro s
    simp only [intRange, List.nodup_cons]
    refine ⟨fun hmem => ?_, ih (s + 1)⟩
    have := intRange_mem_le n (s + 1) s hmem
    omega

/-- One atomic `bumpSeq` returns the stored value plus one and leaves the
stored value at exactly that. -/
theorem bumpSeq_spec : ∀ (rows : List CounterSeqRow) (scope date : String),
    (bumpSeq rows scope date).2 = seqVal rows scope date + 1 ∧
    seqVal (bumpSeq rows scope date).1 scope date = seqVal rows scope date + 1 := by
  intro rows scope date
  induction rows with
  | nil => simp [bumpSeq, seqVal]
  | cons r rs ih =>
    by_cases hmatch : r.scope = scope ∧ r.date = date
    · simp [bumpSeq, seqVal, hmatch]
    · simp [bumpSeq, seqVal, hmatch, ih]

/-- `n` consecutive atomic increments return the `n` consecutive integers
after the stored value. -/
theorem issueSeqN_spec (scope date : String) :
    ∀ (n : Nat) (rows : List CounterSeqRow),
      (issueSeqN n rows scope date).2 = intRange (seqVal rows scope date + 1) n ∧
      seqVal (issueSeqN n rows scope date).1 scope date = seqVal rows scope date + n := by
  intro n
  induction n with
  | zero => intro rows; simp [issueSeqN, intRange]
  | succ n ih =>
    intro rows
    obtain ⟨hb1, hb2⟩ := bumpSeq_spec rows scope date
    obtain ⟨hi1, hi2⟩ := ih (bumpSeq rows scope date).1
    have hstep : issueSeqN (n + 1) rows scope date =
        ((issueSeqN n (bumpSeq rows scope date).1 scope date).1,
         (bumpSeq rows scope date).2 :: (issueSeqN n (bumpSeq rows scope date).1 scope date).2) :=
      rfl
    rw [hstep]
    dsimp only
    constructor
    · rw [hb1, hi1, hb2]
      simp only [intRange]
    · rw [hi2, hb2]
      push_cast
      ring

/-- From a fresh counter, `n` calls return exactly 1..n. -/
theorem issueSeqN_from_empty (scope date : String) (n : Nat) :
    (issueSeqN n [] scope date).2 = intRange 1 n := by
  have h := (issueSeqN_spec scope date n []).1
  simpa [seqVal] using h

/-! ## Purchase payment lemmas -/

/-- `resolvePaymentStatus` is exactly the §3 pure function of
(grandTotal, amountPaid). -/
theorem resolvePaymentStatus_charact (gt ap : ℚ) :
    (resolvePaymentStatus gt ap = PayStatus.paid ↔ ap ≥ gt) ∧
    (resolvePaymentStatus gt ap = PayStatus.part ↔ 0 < ap ∧ ap < gt) ∧
    (resolvePaymentStatus gt ap = PayStatus.pending ↔ ap ≤ 0 ∧ ap < gt) := by
  unfold resolvePaymentStatus
  split_ifs with h1 h2
  · refine ⟨⟨fun _ => h1, fun _ => rfl⟩, ⟨fun h => ?_, fun h => ?_⟩, ⟨fun h => ?_, fun h => ?_⟩⟩
    · exact h.elim
    · exact absurd h1 (not_le.mpr h.2)
    · exact h.elim
    · exact absurd h1 (not_le.mpr h.2)
  · refine ⟨⟨fun h => ?_, fun h => ?_⟩, ⟨fun _ => ⟨h2, lt_of_not_ge h1⟩, fun _ => rfl⟩,
      ⟨fun h => ?_, fun h => ?_⟩⟩
    · exact h.elim
    · exact absurd h h1
    · exact h.elim
    · exact absurd h2 (not_lt.mpr h.1)
  · refine ⟨⟨fun h => ?_, fun h => ?_⟩, ⟨fun h => ?_, fun h => ?_⟩,
      ⟨fun _ => ⟨not_lt.mp h2, lt_of_not_ge h1⟩, fun _ => rfl⟩⟩
    · exact h.elim
    · exact absurd h h1
    · exact h.elim
    · exact absurd h.1 h2

/-- Any purchase `createPurchase` commits satisfies the due/payment-status
invariant at creation. -/
theorem createPurchaseFinancials_ok (subtotal discount tax amountPaid : ℚ) (hm : Bool)
    (gt due : ℚ) (ps : PayStatus)
    (h : createPurchaseFinancials subtotal discount tax amountPaid hm = .ok (gt, due, ps)) :
    gt = subtotal - discount + tax ∧ due = max 0 (gt - amountPaid) ∧
    ps = resolvePaymentStatus gt amountPaid ∧ amountPaid ≤ gt := by
  simp only [createPurchaseFinancials] at h
  split at h
  · exact Except.noConfusion h
  · split at h
    · exact Except.noConfusion h
    · split at h
      · exact Except.noConfusion h
      · split at h
        · exact Except.noConfusion h
        · split at h
          · exact Except.noConfusion h
          · split at h
            · exact Except.noConfusion h
            · split at h
              · exact Except.noConfusion h
              · cases h
                rename_i h1 h2 h3 h4 h5 h6 h7
                exact ⟨rfl, rfl, rfl, not_lt.mp h6⟩

/-- Any successful `recordPayment` reestablishes the due/payment-status
invariant and completes a fully paid RECEIVED order. -/
theorem recordPayment_ok_invariant (p : PurchaseDoc) (amount : ℚ) (pm : Option String)
    (paidAt : Int) (p' : PurchaseDoc) (d : ℚ)
    (h : recordPayment p amount pm paidAt = .ok (p', d)) :
    p'.grandTotal = p.grandTotal ∧
    p'.amountPaid = p.amountPaid + amount ∧
    p'.dueAmount = max 0 (p'.grandTotal - p'.amountPaid) ∧
    p'.paymentStatus = resolvePaymentStatus p'.grandTotal p'.amountPaid ∧
    (p.status = PurchaseStatus.received → p'.paymentStatus = PayStatus.paid →
      p'.status = PurchaseStatus.completed) ∧
    d = -amount := by
  simp only [recordPayment] at h
  split at h
  · exact Except.noConfusion h
  · split at h
    · exact Except.noConfusion h
    · split at h
      · exact Except.noConfusion h
      · split at h
        · exact Except.noConfusion h
        · split at h
          · exact Except.noConfusion h
          · cases h
            by_cases hc : p.status = PurchaseStatus.received ∧
                resolvePaymentStatus p.grandTotal (p.amountPaid + amount) = PayStatus.paid
            · rw [if_pos hc]
              exact ⟨rfl, rfl, rfl, rfl, fun _ _ => rfl, rfl⟩
            · rw [if_neg hc]
              exact ⟨rfl, rfl, rfl, rfl,
                fun hrec hpaid => absurd ⟨hrec, hpaid⟩ hc, rfl⟩

/-! ## Claims C3–C8 -/

/-- C3 counterexample: `receivePurchase` does not run under a transaction —
its writes are individually committed with no session, no snapshot read
concern and no majority write concern, and after its first committed write
(the batch upsert of the single line item) the inventory already carries
the received 10 units while the purchase document still reads ORDERED: a
partial effect any failure of the remaining writes would leave behind,
contradicting the claim for the purchase mutations. -/
theorem receivePurchase_not_transactional_cex :
    opTxSpec CommerceOp.receivePurchaseOp = TxSpec.mk false false false ∧
    (receivePurchaseWrites 1 happyNow happyNow orderedState).map (fun ws =>
      ((applyWritesUpTo ws 1 orderedState).batches.map Batch.quantity,
       (applyWritesUpTo ws 1 orderedState).purchases.map PurchaseDoc.status)) =
      .ok ([10], [PurchaseStatus.ordered]) ∧
    (receivePurchaseWrites 1 happyNow happyNow orderedState).map (fun ws =>
      ((applyWritesUpTo ws ws.length orderedState).batches.map Batch.quantity,
       (applyWritesUpTo ws ws.length orderedState).purchases.map PurchaseDoc.status)) =
      .ok ([10], [PurchaseStatus.received]) := by decide

/-- C3 amended: sale creation and sale return execute under a storage
transaction with snapshot read isolation and majority-acknowledged writes,
so an error leaves all documents unchanged; the purchase mutations
(receive, record payment, cancel) open no transaction at all and perform a
sequence of independently committed writes. -/
theorem transaction_discipline_amended :
    opTxSpec CommerceOp.createSaleOp = TxSpec.mk true true true ∧
    opTxSpec CommerceOp.returnSaleOp = TxSpec.mk true true true ∧
    opTxSpec CommerceOp.receivePurchaseOp = TxSpec.mk false false false ∧
    opTxSpec CommerceOp.recordPaymentOp = TxSpec.mk false false false ∧
    opTxSpec CommerceOp.cancelPurchaseOp = TxSpec.mk false false false ∧
    (receivePurchaseWrites 1 happyNow happyNow orderedState).map List.length = .ok 4 := by
  decide

/-- C4 counterexample: purchase-order numbering is an application-level
read (countDocuments) followed by `count + 1`, and the insert happens in a
later, separate storage operation; interleaving two concurrent
`createPurchase` callers as read₁, read₂, insert₁, insert₂ issues the
duplicate pair (0001, 0001) for the same day — the issued set is not
{1..N}.  A serial schedule issues (0001, 0002). -/
theorem poNumber_duplicate_cex :
    (runPoSchedule happyNow
        [PoEvent.read1, PoEvent.read2, PoEvent.insert1, PoEvent.insert2]).num1 =
      some "PO-20231114-0001" ∧
    (runPoSchedule happyNow
        [PoEvent.read1, PoEvent.read2, PoEvent.insert1, PoEvent.insert2]).num2 =
      some "PO-20231114-0001" ∧
    (runPoSchedule happyNow
        [PoEvent.read1, PoEvent.insert1, PoEvent.read2, PoEvent.insert2]).num1 =
      some "PO-20231114-0001" ∧
    (runPoSchedule happyNow
        [PoEvent.read1, PoEvent.insert1, PoEvent.read2, PoEvent.insert2]).num2 =
      some "PO-20231114-0002" := by decide

/-- C4 amended: invoice sequencing (`generateInvoiceNumber`) is a single
atomic upserting increment-and-read per call, so every execution of N calls
on one (scope, date) key — concurrent or not — is a sequence of `bumpSeq`
steps and returns exactly 1..N, duplicate-free and gap-free; purchase-order
numbers are built from a non-atomic countDocuments read and can repeat
under the interleaving exhibited in the counterexample. -/
theorem sequence_numbers_amended :
    (∀ (n : Nat) (scope date : String), (issueSeqN n [] scope date).2 = intRange 1 n) ∧
    (∀ (n : Nat) (s : Int), (intRange s n).Nodup) ∧
    (runPoSchedule happyNow
        [PoEvent.read1, PoEvent.read2, PoEvent.insert1, PoEvent.insert2]).num1 =
      (runPoSchedule happyNow
        [PoEvent.read1, PoEvent.read2, PoEvent.insert1, PoEvent.insert2]).num2 :=
  ⟨fun n scope date => issueSeqN_from_empty scope date n,
   fun n s => intRange_nodup n s, by decide⟩

/-- C5: after purchase creation and after every recorded payment,
`dueAmount = max 0 (grandTotal - amountPaid)` and `paymentStatus` is the
pure function of (grandTotal, amountPaid) — paid iff `amountPaid ≥
grandTotal`, partial iff `0 < amountPaid < grandTotal`, else pending — and
concretely a purchase of 1000 with 400 paid is (partial, due 600), paying
600 more makes it (paid, due 0) and completes a RECEIVED order. -/
theorem purchase_payment_invariant :
    (∀ gt ap : ℚ,
        (resolvePaymentStatus gt ap = PayStatus.paid ↔ ap ≥ gt) ∧
        (resolvePaymentStatus gt ap = PayStatus.part ↔ 0 < ap ∧ ap < gt) ∧
        (resolvePaymentStatus gt ap = PayStatus.pending ↔ ap ≤ 0 ∧ ap < gt)) ∧
    (∀ (subtotal discount tax amountPaid : ℚ) (hm : Bool) (gt due : ℚ) (ps : PayStatus),
        createPurchaseFinancials subtotal discount tax amountPaid hm = .ok (gt, due, ps) →
        due = max 0 (gt - amountPaid) ∧ ps = resolvePaymentStatus gt amountPaid) ∧
    (∀ (p : PurchaseDoc) (amount : ℚ) (pm : Option String) (paidAt : Int)
        (p' : PurchaseDoc) (d : ℚ),
        recordPayment p amount pm paidAt = .ok (p', d) →
        p'.dueAmount = max 0 (p'.grandTotal - p'.amountPaid) ∧
        p'.paymentStatus = resolvePaymentStatus p'.grandTotal p'.amountPaid ∧
        (p.status = PurchaseStatus.received → p'.paymentStatus = PayStatus.paid →
          p'.status = PurchaseStatus.completed)) ∧
    createPurchaseFinancials 1000 0 0 400 true = .ok (1000, 600, PayStatus.part) ∧
    (recordPayment duePurchase 600 (some "cash") happyNow).map
        (fun r => (r.1.paymentStatus, r.1.dueAmount, r.1.status)) =
      .ok (PayStatus.paid, 0, PurchaseStatus.completed) :=
  ⟨resolvePaymentStatus_charact,
   fun subtotal discount tax amountPaid hm gt due ps h =>
     ⟨(createPurchaseFinancials_ok subtotal discount tax amountPaid hm gt due ps h).2.1,
      (createPurchaseFinancials_ok subtotal discount tax amountPaid hm gt due ps h).2.2.1⟩,
   fun p amount pm paidAt p' d h =>
     ⟨(recordPayment_ok_invariant p amount pm paidAt p' d h).2.2.1,
      (recordPayment_ok_invariant p amount pm paidAt p' d h).2.2.2.1,
      (recordPayment_ok_invariant p amount pm paidAt p' d h).2.2.2.2.1⟩,
   by decide, by decide⟩

/-- Witness for C5: the create invariant applied at (1000, 0, 0, 400) and
the record-payment invariant applied at the concrete 600 payment. -/
theorem purchase_payment_invariant_witness :
    ((600 : ℚ) = max 0 (1000 - 400) ∧
      PayStatus.part = resolvePaymentStatus 1000 400) ∧
    (duePaidRun.1.dueAmount = max 0 (duePaidRun.1.grandTotal - duePaidRun.1.amountPaid) ∧
      duePaidRun.1.paymentStatus =
        resolvePaymentStatus duePaidRun.1.grandTotal duePaidRun.1.amountPaid) :=
  ⟨purchase_payment_invariant.2.1 1000 0 0 400 true 1000 600 PayStatus.part (by decide),
   ⟨(purchase_payment_invariant.2.2.1 duePurchase 600 (some "cash") happyNow
       duePaidRun.1 duePaidRun.2 (by decide)).1,
    (purchase_payment_invariant.2.2.1 duePurchase 600 (some "cash") happyNow
       duePaidRun.1 duePaidRun.2 (by decide)).2.1⟩⟩

/-- C6 counterexample: once a purchase has left ORDERED, a second receive is
rejected — but with the repository's `ValidationError` (field "status"), not
with the spec's `StateConflictError`, of which no class exists anywhere in
the code. -/
theorem receive_rejection_error_type_cex :
    receivePurchase 1 happyNow happyNow receivedState =
      .error (AppError.validation "status" "Purchase already received") ∧
    raisedStateConflict (receivePurchase 1 happyNow happyNow receivedState) = false := by
  decide

/-- C6 amended: once the purchase's status has left ORDERED (RECEIVED,
COMPLETED or CANCELLED), `receivePurchase` raises a `ValidationError` keyed
on "status" before computing any write, so it performs no mutation and
inventory cannot be double-counted; the error class is `ValidationError`,
not a `StateConflictError`. -/
theorem receive_second_call_rejected (st : PurchTenantState) (pid : Nat) (rd now : Int)
    (p : PurchaseDoc)
    (hfind : st.purchases.find? (fun x => x.id = pid) = some p)
    (hst : p.status ≠ PurchaseStatus.ordered) :
    receivePurchaseWrites pid rd now st =
      .error (AppError.validation "status"
        (if p.status = PurchaseStatus.cancelled then "Cannot receive a cancelled purchase order"
         else "Purchase already received")) ∧
    receivePurchase pid rd now st =
      .error (AppError.validation "status"
        (if p.status = PurchaseStatus.cancelled then "Cannot receive a cancelled purchase order"
         else "Purchase already received")) := by
  have hw : receivePurchaseWrites pid rd now st =
      .error (AppError.validation "status"
        (if p.status = PurchaseStatus.cancelled then "Cannot receive a cancelled purchase order"
         else "Purchase already received")) := by
    simp only [receivePurchaseWrites, hfind]
    cases hps : p.status with
    | ordered => exact absurd hps hst
    | received => simp [hps]
    | completed => simp [hps]
    | cancelled => simp [hps]
  refine ⟨hw, ?_⟩
  simp only [receivePurchase, hw]

/-- Witness for C6: the amended rejection applied to the concrete
already-received purchase. -/
theorem receive_second_call_rejected_witness :
    receivePurchase 1 happyNow happyNow receivedState =
      .error (AppError.validation "status" "Purchase already received") :=
  ((receive_second_call_rejected receivedState 1 happyNow happyNow receivedPurchaseDoc
      (by decide) (by decide)).2).trans (by decide)

/-- C7 counterexample: with a transient conflict on the first attempt and
success available from the second, `createSale`'s loop succeeds after 2
attempts, but `returnSale` — a single `withTransaction` call with no
surrounding loop — surfaces the transient error after exactly 1 attempt:
the two methods do not share the 3-attempt retry discipline. -/
theorem returnSale_no_retry_cex :
    returnSaleAttempts transientThenSuccess = (1, AttemptResult.transientErr) ∧
    createSaleAttempts transientThenSuccess = (2, AttemptResult.success) ∧
    returnSaleAttempts transientThenSuccess ≠ createSaleAttempts transientThenSuccess := by
  decide

/-- C7 amended: `createSale` retries its whole transactional closure on the
transient-conflict label up to 3 total attempts, never retries a
non-transient error (surfaced on attempt 1), surfaces the transient error
after the 3rd attempt; `returnSale` runs under the same transaction options
but executes its closure exactly once, surfacing whatever the single
attempt produced. -/
theorem retry_discipline_amended :
    (∀ outcomes : Nat → AttemptResult, (createSaleAttempts outcomes).1 ≤ 3) ∧
    (∀ outcomes : Nat → AttemptResult, outcomes 0 = AttemptResult.fatalErr →
        createSaleAttempts outcomes = (1, AttemptResult.fatalErr)) ∧
    (∀ outcomes : Nat → AttemptResult, outcomes 0 = AttemptResult.success →
        createSaleAttempts outcomes = (1, AttemptResult.success)) ∧
    (∀ outcomes : Nat → AttemptResult, outcomes 0 = AttemptResult.transientErr →
        outcomes 1 = AttemptResult.transientErr → outcomes 2 = AttemptResult.transientErr →
        createSaleAttempts outcomes = (3, AttemptResult.transientErr)) ∧
    (∀ outcomes : Nat → AttemptResult, outcomes 0 = AttemptResult.transientErr →
        outcomes 1 ≠ AttemptResult.transientErr →
        createSaleAttempts outcomes = (2, outcomes 1)) ∧
    (∀ outcomes : Nat → AttemptResult, returnSaleAttempts outcomes = (1, outcomes 0)) ∧
    opTxSpec CommerceOp.returnSaleOp = opTxSpec CommerceOp.createSaleOp := by
  refine ⟨?_, ?_, ?_, ?_, ?_, fun _ => rfl, rfl⟩
  · intro outcomes
    rcases h0 : outcomes 0 <;> rcases h1 : outcomes 1 <;> rcases h2 : outcomes 2 <;>
      simp [createSaleAttempts, withTransactionRetry, h0, h1, h2]
  · intro outcomes h0
    simp [createSaleAttempts, withTransactionRetry, h0]
  · intro outcomes h0
    simp [createSaleAttempts, withTransactionRetry, h0]
  · intro outcomes h0 h1 h2
    simp [createSaleAttempts, withTransactionRetry, h0, h1, h2]
  · intro outcomes h0 h1
    rcases hx : outcomes 1 with _ | _ | _
    · simp [createSaleAttempts, withTransactionRetry, h0, hx]
    · exact absurd hx h1
    · simp [createSaleAttempts, withTransactionRetry, h0, hx]

/-- Witness for C7: the amended retry properties applied to concrete
attempt schedules. -/
theorem retry_discipline_amended_witness :
    createSaleAttempts (fun _ => AttemptResult.fatalErr) = (1, AttemptResult.fatalErr) ∧
    createSaleAttempts (fun _ => AttemptResult.transientErr) = (3, AttemptResult.transientErr) ∧
    returnSaleAttempts (fun _ => AttemptResult.transientErr) = (1, AttemptResult.transientErr) :=
  ⟨retry_discipline_amended.2.1 _ rfl,
   retry_discipline_amended.2.2.2.1 _ rfl rfl rfl,
   retry_discipline_amended.2.2.2.2.2.1 _⟩

/-- C8: with ttl 100s and staleAfter 50s and an envelope cached at t = 0, a
fetch at t = 60s returns the old value immediately (fromCache, isRevalidating)
and spawns exactly one background reload — on success the fresh envelope is
stored, on failure nothing is raised to the caller and the stale envelope
stays; a fetch at t = 40s returns the cached value with no reload; a fetch
with no cached envelope calls the loader in the foreground, stores the fresh
envelope and returns fromCache = false. -/
theorem swrFetch_swr_contract :
    swrFetch (some ⟨some (7 : ℚ), 0⟩) 60000 100 (some 50) (.ok 9) =
      ⟨.ok ⟨7, true, true⟩, some ⟨some 9, 60000⟩, 1, false⟩ ∧
    swrFetch (some ⟨some (7 : ℚ), 0⟩) 60000 100 (some 50) (.error ()) =
      ⟨.ok ⟨7, true, true⟩, some ⟨some 7, 0⟩, 1, false⟩ ∧
    swrFetch (some ⟨some (7 : ℚ), 0⟩) 40000 100 (some 50) (.ok 9) =
      ⟨.ok ⟨7, true, false⟩, some ⟨some 7, 0⟩, 0, false⟩ ∧
    swrFetch (none : Option (Envelope ℚ)) 40000 100 (some 50) (.ok 9) =
      ⟨.ok ⟨9, false, false⟩, some ⟨some 9, 40000⟩, 0, false⟩ :=
  ⟨rfl, rfl, rfl, rfl⟩

/-! ## Stable-hash lemmas (C9) -/

theorem charToNat_inj {a b : Char} (h : a.toNat = b.toNat) : a = b :=
  Char.ext (UInt32.ext h)

theorem charListLE_total : ∀ as bs : List Char,
    charListLE as bs = true ∨ charListLE bs as = true := by
  intro as
  induction as with
  | nil => intro bs; left; rfl
  | cons a as ih =>
    intro bs
    cases bs with
    | nil => right; rfl
    | cons b bs =>
      simp only [charListLE]
      rcases Nat.lt_trichotomy a.toNat b.toNat with h | h | h
      · left
        simp [h, Nat.not_lt.mpr (Nat.le_of_lt h)]
      · rcases ih bs with h2 | h2
        · left
          simp [h, h2]
        · right
          simp [h, h2]
      · right
        simp [h, Nat.not_lt.mpr (Nat.le_of_lt h)]

theorem charListLE_antisymm : ∀ as bs : List Char,
    charListLE as bs = true → charListLE bs as = true → as = bs := by
  intro as
  induction as with
  | nil =>
    intro bs h1 h2
    cases bs with
    | nil => rfl
    | cons b bs => simp [charListLE] at h2
  | cons a as ih =>
    intro bs h1 h2
    cases bs with
    | nil => simp [charListLE] at h1
    | cons b bs =>
      simp only [charListLE] at h1 h2
      rcases Nat.lt_trichotomy a.toNat b.toNat with h | h | h
      · simp [h, Nat.not_lt.mpr (Nat.le_of_lt h)] at h2
      · have hab : a = b := charToNat_inj h
        subst hab
        simp only [lt_irrefl, if_false] at h1 h2
        rw [ih bs h1 h2]
      · simp [h, Nat.not_lt.mpr (Nat.le_of_lt h)] at h1

theorem charListLE_trans : ∀ as bs cs : List Char,
    charListLE as bs = true → charListLE bs cs = true → charListLE as cs = true := by
  intro as
  induction as with
  | nil => intro bs cs _ _; rfl
  | cons a as ih =>
    intro bs cs h1 h2
    cases bs with
    | nil => simp [charListLE] at h1
    | cons b bs =>
      cases cs with
      | nil => simp [charListLE] at h2
      | cons c cs =>
        simp only [charListLE] at h1 h2 ⊢
        rcases Nat.lt_trichotomy a.toNat b.toNat with hab | hab | hab
        · rcases Nat.lt_trichotomy b.toNat c.toNat with hbc | hbc | hbc
          · simp [Nat.lt_trans hab hbc]
          · have hb : b = c := charToNat_inj hbc
            subst hb
            simp [hab]
          · simp [hbc, Nat.not_lt.mpr (Nat.le_of_lt hbc)] at h2
        · have hb : a = b := charToNat_inj hab
          subst hb
          simp only [lt_irrefl, if_false] at h1
          rcases Nat.lt_trichotomy a.toNat c.toNat with hac | hac | hac
          · simp [hac]
          · have hc : a = c := charToNat_inj hac
            subst hc
            simp only [lt_irrefl, if_false] at h2 ⊢
            exact ih bs cs h1 h2
          · simp [hac, Nat.not_lt.mpr (Nat.le_of_lt hac)] at h2
        · simp [hab, Nat.not_lt.mpr (Nat.le_of_lt hab)] at h1

theorem strLE_total (a b : String) : strLE a b = true ∨ strLE b a = true :=
  charListLE_total a.toList b.toList

theorem strLE_antisymm {a b : String} (h1 : strLE a b = true) (h2 : strLE b a = true) :
    a = b := by
  have h := charListLE_antisymm a.toList b.toList h1 h2
  exact String.ext h

theorem strLE_trans {a b c : String} (h1 : strLE a b = true) (h2 : strLE b c = true) :
    strLE a c = true :=
  charListLE_trans a.toList b.toList c.toList h1 h2

theorem orderedInsertPair_perm (p : String × String) :
    ∀ l, (orderedInsertPair p l).Perm (p :: l) := by
  intro l
  induction l with
  | nil => exact List.Perm.refl _
  | cons q rest ih =>
    simp only [orderedInsertPair]
    split
    · exact List.Perm.refl _
    · exact (ih.cons q).trans (List.Perm.swap p q rest)

theorem sortPairs_perm : ∀ l, (sortPairs l).Perm l := by
  intro l
  induction l with
  | nil => exact List.Perm.refl _
  | cons p rest ih =>
    exact (orderedInsertPair_perm p (sortPairs rest)).trans (ih.cons p)

theorem orderedInsertPair_pairwise (p : String × String) :
    ∀ l, List.Pairwise (fun x y => strLE x.1 y.1 = true) l →
      List.Pairwise (fun x y => strLE x.1 y.1 = true) (orderedInsertPair p l) := by
  intro l
  induction l with
  | nil => intro _; simp [orderedInsertPair]
  | cons q rest ih =>
    intro hp
    simp only [orderedInsertPair]
    split
    · rename_i hle
      refine List.Pairwise.cons (fun x hx => ?_) hp
      rcases List.mem_cons.mp hx with rfl | hx
      · exact hle
      · exact strLE_trans hle (List.rel_of_pairwise_cons hp hx)
    · rename_i hnle
      have hqp : strLE q.1 p.1 = true := by
        rcases strLE_total p.1 q.1 with h | h
        · exact absurd h hnle
        · exact h
      refine List.Pairwise.cons (fun x hx => ?_) (ih hp.of_cons)
      rcases List.mem_cons.mp ((orderedInsertPair_perm p rest).mem_iff.mp hx) with rfl | hxr
      · exact hqp
      · exact List.rel_of_pairwise_cons hp hxr

theorem sortPairs_pairwise (l : List (String × String)) :
    List.Pairwise (fun x y => strLE x.1 y.1 = true) (sortPairs l) := by
  induction l with
  | nil => simp [sortPairs]
  | cons p rest ih => exact orderedInsertPair_pairwise p (sortPairs rest) ih

theorem sorted_perm_nodupkeys_eq :
    ∀ (l₁ l₂ : List (String × String)),
      l₁.Perm l₂ →
      List.Pairwise (fun x y => strLE x.1 y.1 = true) l₁ →
      List.Pairwise (fun x y => strLE x.1 y.1 = true) l₂ →
      (l₁.map Prod.fst).Nodup → l₁ = l₂ := by
  intro l₁
  induction l₁ with
  | nil => intro l₂ hperm _ _ _; exact hperm.nil_eq
  | cons a t₁ ih =>
    intro l₂ hperm hs1 hs2 hnd
    cases l₂ with
    | nil => exact List.noConfusion hperm.eq_nil
    | cons b t₂ =>
      have hab : a = b := by
        have hamem : a ∈ b :: t₂ := hperm.mem_iff.mp (List.mem_cons_self a t₁)
        have hbmem : b ∈ a :: t₁ := hperm.symm.mem_iff.mp (List.mem_cons_self b t₂)
        rcases List.mem_cons.mp hamem with h | hat2
        · exact h
        · rcases List.mem_cons.mp hbmem with h | hbt1
          · exact h.symm
          · have h1 : strLE a.1 b.1 = true := List.rel_of_pairwise_cons hs1 hbt1
            have h2 : strLE b.1 a.1 = true := List.rel_of_pairwise_cons hs2 hat2
            have hkey : a.1 = b.1 := strLE_antisymm h1 h2
            exfalso
            simp only [List.map_cons, List.nodup_cons] at hnd
            exact hnd.1 (hkey ▸ List.mem_map_of_mem Prod.fst hbt1)
      subst hab
      have htail : t₁ = t₂ := by
        refine ih t₂ hperm.cons_inv hs1.of_cons hs2.of_cons ?_
        simp only [List.map_cons, List.nodup_cons] at hnd
        exact hnd.2
      rw [htail]

theorem sortPairs_eq_of_perm {l₁ l₂ : List (String × String)} (h : l₁.Perm l₂)
    (hnd : (l₁.map Prod.fst).Nodup) : sortPairs l₁ = sortPairs l₂ := by
  refine sorted_perm_nodupkeys_eq _ _ ?_ (sortPairs_pairwise l₁) (sortPairs_pairwise l₂) ?_
  · exact (sortPairs_perm l₁).trans (h.trans (sortPairs_perm l₂).symm)
  · have hm : ((sortPairs l₁).map Prod.fst).Perm (l₁.map Prod.fst) := (sortPairs_perm l₁).map _
    exact hm.nodup_iff.mpr hnd

theorem stringifyList_eq_map : ∀ l : List Json, stringifyList l = l.map stableStringify := by
  intro l
  induction l with
  | nil => simp [stringifyList]
  | cons j rest ih => simp [stringifyList, ih]

theorem stringifyEntries_eq_map : ∀ l : List (String × Json),
    stringifyEntries l = l.map (fun kv => (kv.1, stableStringify kv.2)) := by
  intro l
  induction l with
  | nil => simp [stringifyEntries]
  | cons kv rest ih =>
    cases kv with
    | mk k v => simp [stringifyEntries, ih]

theorem map_eq_of_zip {α β γ : Type} (f : α → γ) (g : β → γ) :
    ∀ (xs : List α) (ys : List β), xs.length = ys.length →
      (∀ p ∈ xs.zip ys, f p.1 = g p.2) → xs.map f = ys.map g := by
  intro xs
  induction xs with
  | nil =>
    intro ys hlen _
    cases ys with
    | nil => rfl
    | cons y ys => simp at hlen
  | cons x xs ih =>
    intro ys hlen hp
    cases ys with
    | nil => simp at hlen
    | cons y ys =>
      simp only [List.map_cons]
      have h1 := hp (x, y) (by simp [List.zip_cons_cons])
      rw [h1, ih ys (by simpa using hlen)
        (fun p hmem => hp p (by simp [List.zip_cons_cons, hmem]))]

theorem stableStringify_equiv : ∀ {a b : Json}, JsonEquiv a b →
    stableStringify a = stableStringify b := by
  intro a b h
  induction h with
  | null => rfl
  | bool b => rfl
  | num n => rfl
  | str s => rfl
  | arr xs ys hlen h ih =>
    simp only [stableStringify, stringifyList_eq_map]
    rw [map_eq_of_zip stableStringify stableStringify xs ys hlen ih]
  | obj kvs₁ kvs' kvs₂ hperm hnd hlen hkeys hvals ih =>
    simp only [stableStringify, stringifyEntries_eq_map]
    have hmapeq : kvs'.map (fun kv => (kv.1, stableStringify kv.2)) =
        kvs₂.map (fun kv => (kv.1, stableStringify kv.2)) := by
      refine map_eq_of_zip _ _ kvs' kvs₂ hlen (fun p hp => ?_)
      have hk := hkeys p hp
      have hv := ih p hp
      exact Prod.ext hk hv
    have hperm2 : (kvs₁.map (fun kv => (kv.1, stableStringify kv.2))).Perm
        (kvs₂.map (fun kv => (kv.1, stableStringify kv.2))) := by
      rw [← hmapeq]
      exact hperm.map _
    have hnd2 : ((kvs₁.map (fun kv => (kv.1, stableStringify kv.2))).map Prod.fst).Nodup := by
      rw [List.map_map]
      simpa [Function.comp] using hnd
    rw [sortPairs_eq_of_perm hperm2 hnd2]

/-- C9: cache-key derivation is order-insensitive and value-sensitive —
`buildCacheHash` returns identical output on every pair of parameter values
that are semantically identical up to (recursive) object-key insertion
order, `buildCacheHash (obj a:1, b:2) = buildCacheHash (obj b:2, a:1)`, and
objects differing in a value hash differently:
`buildCacheHash (obj a:1) ≠ buildCacheHash (obj a:2)`. -/
theorem buildCacheHash_stable_and_value_sensitive :
    (∀ j₁ j₂ : Json, JsonEquiv j₁ j₂ → buildCacheHash j₁ = buildCacheHash j₂) ∧
    buildCacheHash (Json.obj [("a", Json.num 1), ("b", Json.num 2)]) =
      buildCacheHash (Json.obj [("b", Json.num 2), ("a", Json.num 1)]) ∧
    buildCacheHash (Json.obj [("a", Json.num 1)]) ≠
      buildCacheHash (Json.obj [("a", Json.num 2)]) := by
  refine ⟨fun j₁ j₂ h => ?_, ?_, ?_⟩
  · simp only [buildCacheHash]
    rw [stableStringify_equiv h]
  · simp only [buildCacheHash, stableStringify, stringifyEntries]
    decide
  · simp only [buildCacheHash, stableStringify, stringifyEntries]
    decide

/-- Witness for C9: the universal part applied to the two orderings of
the object with keys a and b, with the equivalence derivation given
explicitly. -/
theorem buildCacheHash_stable_witness :
    buildCacheHash (Json.obj [("a", Json.num 1), ("b", Json.num 2)]) =
      buildCacheHash (Json.obj [("b", Json.num 2), ("a", Json.num 1)]) :=
  buildCacheHash_stable_and_value_sensitive.1 _ _
    (JsonEquiv.obj [("a", Json.num 1), ("b", Json.num 2)]
      [("b", Json.num 2), ("a", Json.num 1)] [("b", Json.num 2), ("a", Json.num 1)]
      (List.Perm.swap ("b", Json.num 2) ("a", Json.num 1) [])
      (by decide) rfl (by decide)
      (by
        intro p hp
        simp only [List.zip_cons_cons, List.zip_nil_right, List.mem_cons,
          List.not_mem_nil, or_false] at hp
        rcases hp with rfl | rfl
        · exact JsonEquiv.num 2
        · exact JsonEquiv.num 1))

end Pharma360
